import Mathlib

/-!
Verification development for the tabular query and analysis engine of this
repository (`tools/data_tools.py`, `tools/advanced_data_tools.py`, and the
result-normalisation helpers of `data-insights.py`).

The Python code is shallowly embedded: a pandas `DataFrame` becomes a record
of column names, column dtypes and a row-major list of cell values; every
operation of the engine becomes an executable Lean function translated
clause-by-clause from the source.  Python regular-expression searches are
modelled by explicit leftmost scanners over the character list of the
(lowercased) query string.

Modelling conventions, stated once here:

* Numbers.  Python/pandas floats are modelled by exact unnormalised fractions
  (`Frac`, an integer numerator and denominator).  All fractions built by the
  embedding have a positive denominator.  Comparisons are performed by
  cross-multiplication, which agrees with the numeric order whenever the
  denominators are positive.
* Strings.  Computations are performed on `List Char`; `str.lower` is modelled
  by ASCII lowering, and `\w`, `\s`, `\d` of Python's `re` by the
  corresponding ASCII character classes, matching the inputs the engine is
  specified on.
* pandas comparisons between incompatible runtime types (for example a string
  column compared with a number) raise in pandas; the embedding makes such a
  cell test `false`.  No settled claim depends on such an input: the theorems
  below either quantify over the very predicate the code uses on both sides,
  or use type-matched concrete inputs.
* `float(...)` conversions of malformed numeric tokens (such as `1.2.3`, which
  `[\d.]+` can capture) raise an uncaught exception in the source.  The
  scanners below return the raw matched token, so hypotheses of the form
  "no WHERE clause matched" exclude those crashing inputs from the verified
  statements rather than silently normalising them.
-/

/-! ## Character and string utilities (kernel-reducible replacements for
`str.lower`, `str.strip`, `in`, `split`) -/

/-- ASCII lowercase of one character, as Python `str.lower` acts on the ASCII
queries and column names this engine is specified on. -/
def lowerChar (c : Char) : Char :=
  if 'A' ≤ c && c ≤ 'Z' then Char.ofNat (c.toNat + 32) else c

/-- Lowercased character list of a string: the model of `query.lower()`. -/
def lowerS (s : String) : List Char :=
  s.data.map lowerChar

/-- Python `\w` (ASCII): letters, digits, underscore. -/
def isWordChar (c : Char) : Bool :=
  c.isAlphanum || c = '_'

/-- Python `\s` (ASCII whitespace). -/
def isSpaceChar (c : Char) : Bool :=
  c = ' ' || c = '\t' || c = '\n' || c = '\r' || c = '\x0b' || c = '\x0c'

/-- Boolean prefix test on character lists. -/
def isPrefixB : List Char → List Char → Bool
  | [], _ => true
  | _ :: _, [] => false
  | c :: cs, d :: ds => decide (c = d) && isPrefixB cs ds

/-- Boolean substring test: the model of Python's `pat in s` on strings. -/
def containsSub (pat : List Char) : List Char → Bool
  | [] => isPrefixB pat []
  | c :: cs => isPrefixB pat (c :: cs) || containsSub pat cs

/-- Split a character list at every occurrence of `sep`, the model of
`str.split(sep)`. -/
def splitChar (sep : Char) : List Char → List (List Char)
  | [] => [[]]
  | c :: cs =>
    let r := splitChar sep cs
    if c = sep then [] :: r
    else
      match r with
      | [] => [[c]]
      | h :: t => (c :: h) :: t

/-- Strip ASCII whitespace from both ends: the model of `str.strip()`. -/
def trimL (s : List Char) : List Char :=
  ((s.dropWhile isSpaceChar).reverse.dropWhile isSpaceChar).reverse

/-- Strip `'|'` characters from both ends: the model of `str.strip('|')`. -/
def stripPipes (s : List Char) : List Char :=
  ((s.dropWhile (· = '|')).reverse.dropWhile (· = '|')).reverse

/-- Lexicographic (non-strict) order on character lists, the order Python uses
to compare strings. -/
def charsLe : List Char → List Char → Bool
  | [], _ => true
  | _ :: _, [] => false
  | a :: as, b :: bs => if a < b then true else if b < a then false else charsLe as bs

/-- Lexicographic strict order on character lists. -/
def charsLt : List Char → List Char → Bool
  | [], [] => false
  | [], _ :: _ => true
  | _ :: _, [] => false
  | a :: as, b :: bs => if a < b then true else if b < a then false else charsLt as bs

/-- Numeral value of a digit list (the digits were produced by `\d`). -/
def digitsVal (ds : List Char) : Nat :=
  ds.foldl (fun n c => n * 10 + (c.toNat - 48)) 0

/-! ## Exact fractions

pandas numeric cells are modelled by unnormalised fractions so that every
arithmetic step of the engine is exact and kernel-computable.  Every fraction
the embedding constructs has a positive denominator. -/

/-- An unnormalised fraction `num / den`. -/
structure Frac where
  num : Int
  den : Int
  deriving DecidableEq, Repr

/-- Embed an integer. -/
def Frac.ofInt (n : Int) : Frac := ⟨n, 1⟩

/-- Exact addition (no normalisation). -/
def Frac.add (a b : Frac) : Frac := ⟨a.num * b.den + b.num * a.den, a.den * b.den⟩

/-- Exact subtraction. -/
def Frac.sub (a b : Frac) : Frac := ⟨a.num * b.den - b.num * a.den, a.den * b.den⟩

/-- Exact multiplication. -/
def Frac.mul (a b : Frac) : Frac := ⟨a.num * b.num, a.den * b.den⟩

/-- Exact division (used only with positive divisors in this development). -/
def Frac.div (a b : Frac) : Frac := ⟨a.num * b.den, a.den * b.num⟩

/-- Cross-multiplication order `a ≤ b`; agrees with the numeric order when
both denominators are positive. -/
def Frac.leB (a b : Frac) : Bool := decide (a.num * b.den ≤ b.num * a.den)

/-- Cross-multiplication strict order `a < b`. -/
def Frac.ltB (a b : Frac) : Bool := decide (a.num * b.den < b.num * a.den)

/-- Cross-multiplication numeric equality (pandas `==` on numbers). -/
def Frac.eqB (a b : Frac) : Bool := decide (a.num * b.den = b.num * a.den)

/-- The rational number a fraction denotes. -/
def Frac.toRat (a : Frac) : ℚ := (a.num : ℚ) / (a.den : ℚ)

theorem Frac.leB_iff_toRat (a b : Frac) (ha : 0 < a.den) (hb : 0 < b.den) :
    a.leB b = true ↔ a.toRat ≤ b.toRat := by
  have ha' : (0 : ℚ) < (a.den : ℚ) := by exact_mod_cast ha
  have hb' : (0 : ℚ) < (b.den : ℚ) := by exact_mod_cast hb
  rw [Frac.leB, decide_eq_true_iff, Frac.toRat, Frac.toRat,
    div_le_div_iff₀ ha' hb']
  constructor
  · intro h; exact_mod_cast h
  · intro h; exact_mod_cast h

theorem Frac.ltB_iff_toRat (a b : Frac) (ha : 0 < a.den) (hb : 0 < b.den) :
    a.ltB b = true ↔ a.toRat < b.toRat := by
  have ha' : (0 : ℚ) < (a.den : ℚ) := by exact_mod_cast ha
  have hb' : (0 : ℚ) < (b.den : ℚ) := by exact_mod_cast hb
  rw [Frac.ltB, decide_eq_true_iff, Frac.toRat, Frac.toRat,
    div_lt_div_iff₀ ha' hb']
  constructor
  · intro h; exact_mod_cast h
  · intro h; exact_mod_cast h

/-! ## The data model

A pandas `DataFrame` is modelled row-major; `dtypes` runs parallel to
`columns`.  All engine operations below build a new `DataFrame` value, which
is the copy-on-write discipline of the source. -/

/-- The pandas dtypes this engine distinguishes: `int64`, `float64`, and
`object` (strings / mixed). -/
inductive Dtype
  | int64
  | float64
  | obj
  deriving DecidableEq, Repr

/-- Label of a dtype, as `str(series.dtype)` renders it. -/
def Dtype.label : Dtype → String
  | .int64 => "int64"
  | .float64 => "float64"
  | .obj => "object"

/-- A cell value: a number, a string, or a missing value (`NaN`/`None`). -/
inductive Value
  | num (q : Frac)
  | str (s : String)
  | null
  deriving DecidableEq, Repr

/-- Row-major model of a pandas DataFrame. -/
structure DataFrame where
  columns : List String
  dtypes : List Dtype
  rows : List (List Value)
  deriving DecidableEq, Repr

/-- Cell of a row at a column index (out-of-range reads as missing). -/
def cellAt (r : List Value) (i : Nat) : Value := r.getD i Value.null

/-- Index of the column whose name has exactly the characters `w`
(the model of `list(df.columns).index`, and of `w in df.columns` via
`Option.isSome`).  Matching is exact and case-sensitive, as Python `in`
and `==` on strings are. -/
def colIdx (cols : List String) (w : List Char) : Option Nat :=
  match cols with
  | [] => none
  | c :: cs => if c.data = w then some 0 else (colIdx cs w).map (· + 1)

/-- Python `w in df.columns`. -/
def hasCol (cols : List String) (w : List Char) : Bool :=
  (colIdx cols w).isSome

/-- String form of a cell, the model of `astype(str)`: pandas renders a
missing value as the string "nan".  The rendering of numbers is a display
form; no settled claim depends on it. -/
def valueStr : Value → List Char
  | .str s => s.data
  | .null => "nan".data
  | .num a =>
    (if a.num < 0 then ['-'] else []) ++ Nat.toDigits 10 a.num.natAbs ++
      (if a.den = 1 then [] else '/' :: Nat.toDigits 10 a.den.natAbs)

/-! ## Cell comparison semantics (the boolean masks of the source)

Each `m*` function is the elementwise test pandas performs for one comparison
operator.  Missing values compare as `False` under every ordering operator and
under `==` (pandas `NaN` semantics), hence as `True` under `!=`. -/

/-- Mask test for `>`. -/
def mGt : Value → Value → Bool
  | .num a, .num b => Frac.ltB b a
  | .str a, .str b => charsLt b.data a.data
  | _, _ => false

/-- Mask test for `>=`. -/
def mGe : Value → Value → Bool
  | .num a, .num b => Frac.leB b a
  | .str a, .str b => charsLe b.data a.data
  | _, _ => false

/-- Mask test for `<`. -/
def mLt : Value → Value → Bool
  | .num a, .num b => Frac.ltB a b
  | .str a, .str b => charsLt a.data b.data
  | _, _ => false

/-- Mask test for `<=`. -/
def mLe : Value → Value → Bool
  | .num a, .num b => Frac.leB a b
  | .str a, .str b => charsLe a.data b.data
  | _, _ => false

/-- Mask test for `==` (numeric equality on numbers; `NaN == x` is `False`). -/
def mEq : Value → Value → Bool
  | .num a, .num b => Frac.eqB a b
  | .str a, .str b => decide (a = b)
  | _, _ => false

/-- Mask test for `contains`: case-insensitive substring on the string forms,
`na=False` (which the "nan" rendering of missings makes explicit). -/
def mContains (cell v : Value) : Bool :=
  containsSub ((valueStr v).map lowerChar) ((valueStr cell).map lowerChar)

/-! ## Leftmost regex scanners

Python `re.search` scans start positions left to right and, at each position,
tries the branches of an alternation in written order.  `scanA f s` applies
the position matcher `f` at every suffix of `s` and returns the first
success: exactly `re.search` for the patterns modelled here (whose classes
`\w`, `\s`, `\d`, `[\d.]`, `[\w\s]` are pairwise compatible with the greedy,
backtracking-free reading implemented by the matchers — see each matcher's
comment). -/

/-- Leftmost search: try the position matcher at every suffix. -/
def scanA {α : Type} (f : List Char → Option α) : List Char → Option α
  | [] => f []
  | c :: cs =>
    match f (c :: cs) with
    | some a => some a
    | none => scanA f cs

/-- Consume an exact literal, returning the rest. -/
def dropLit : List Char → List Char → Option (List Char)
  | [], s => some s
  | _ :: _, [] => none
  | c :: cs, d :: ds => if d = c then dropLit cs ds else none

/-- Greedy `(\w+)`: the captured word and the rest; fails on zero width. -/
def takeWord (s : List Char) : Option (List Char × List Char) :=
  let w := s.takeWhile isWordChar
  if w.isEmpty then none else some (w, s.dropWhile isWordChar)

/-- Greedy `\s+`: fails unless at least one whitespace character is consumed. -/
def takeSpaces1 : List Char → Option (List Char)
  | [] => none
  | c :: cs => if isSpaceChar c then some (cs.dropWhile isSpaceChar) else none

/-- Greedy `\s*`. -/
def takeSpaces0 (s : List Char) : List Char := s.dropWhile isSpaceChar

/-- Greedy `(\d+)`: numeral value and rest. -/
def takeDigits (s : List Char) : Option (Nat × List Char) :=
  let ds := s.takeWhile Char.isDigit
  if ds.isEmpty then none else some (digitsVal ds, s.dropWhile Char.isDigit)

/-- Greedy `([\d.]+)`: the raw token and the rest (conversion by `float` is
done — and may raise — at the use site in the source). -/
def takeNumTok (s : List Char) : Option (List Char × List Char) :=
  let ds := s.takeWhile (fun c => c.isDigit || c = '.')
  if ds.isEmpty then none else some (ds, s.dropWhile (fun c => c.isDigit || c = '.'))

/-- Greedy `([\w\s]+)`: word characters and whitespace. -/
def takeWordSpaces (s : List Char) : Option (List Char × List Char) :=
  let ds := s.takeWhile (fun c => isWordChar c || isSpaceChar c)
  if ds.isEmpty then none
  else some (ds, s.dropWhile (fun c => isWordChar c || isSpaceChar c))

/-- Python `float` applied to a `[\d.]+` token: `none` models the raise on a
malformed numeral (two or more dots, or a lone dot). -/
def fracOfToken (t : List Char) : Option Frac :=
  match splitChar '.' t with
  | [a] => some (Frac.ofInt (digitsVal a))
  | [a, b] =>
    if a.isEmpty && b.isEmpty then none
    else some ⟨(digitsVal a : Int) * (10 : Int) ^ b.length + (digitsVal b : Int),
               (10 : Int) ^ b.length⟩
  | _ => none

/-- Position matcher for `order by (\w+)|sort by (\w+)|sorted by (\w+)`
(`execute_complex_query`); branches tried in written order. -/
def orderAt (s : List Char) : Option (List Char) :=
  match (dropLit "order by ".data s).bind takeWord with
  | some p => some p.1
  | none =>
    match (dropLit "sort by ".data s).bind takeWord with
    | some p => some p.1
    | none =>
      match (dropLit "sorted by ".data s).bind takeWord with
      | some p => some p.1
      | none => none

/-- Model of `re.search(r'order by (\w+)|sort by (\w+)|sorted by (\w+)', ql)`. -/
def searchOrder (ql : List Char) : Option (List Char) := scanA orderAt ql

/-- One branch `lit\s+(\d+)` of the LIMIT pattern. -/
def limitBranch (lit : String) (s : List Char) : Option Nat :=
  ((dropLit lit.data s).bind takeSpaces1).bind (fun r => (takeDigits r).map (·.1))

/-- Position matcher for `limit\s+(\d+)|first\s+(\d+)|top\s+(\d+)`. -/
def limitAt (s : List Char) : Option Nat :=
  match limitBranch "limit" s with
  | some n => some n
  | none =>
    match limitBranch "first" s with
    | some n => some n
    | none => limitBranch "top" s

/-- Model of `re.search(r'limit\s+(\d+)|first\s+(\d+)|top\s+(\d+)', ql)`. -/
def searchLimit (ql : List Char) : Option Nat := scanA limitAt ql

/-- A captured numeric WHERE clause: column word, operator literal and the raw
`[\d.]+` token (not yet passed through `float`). -/
structure WhereCap where
  col : List Char
  op : String
  tok : List Char
  deriving DecidableEq, Repr

/-- One operator branch `op\s*([\d.]+)` after the column word; trying the
operators of an alternation in written order with the full continuation is
exactly the regex backtracking behaviour (`>` before `>=` succeeds on `>=5`
only via the failed continuation, which this encoding reproduces). -/
def opBranch (op : String) (s : List Char) : Option (String × List Char) :=
  (dropLit op.data s).bind fun r =>
    (takeNumTok (takeSpaces0 r)).map (fun p => (op, p.1))

/-- Try operator literals in written order, each with its continuation. -/
def opAlt (ops : List String) (s : List Char) : Option (String × List Char) :=
  match ops with
  | [] => none
  | o :: os =>
    match opBranch o s with
    | some r => some r
    | none => opAlt os s

/-- Position matcher for `where\s+(\w+)\s*(>|<|>=|<=|==)\s*([\d.]+)`
(the WHERE pattern of `execute_complex_query`). -/
def whereNumAt (s : List Char) : Option WhereCap :=
  ((dropLit "where".data s).bind takeSpaces1).bind fun r =>
    (takeWord r).bind fun wp =>
      (opAlt [">", "<", ">=", "<=", "=="] (takeSpaces0 wp.2)).map fun oc =>
        ⟨wp.1, oc.1, oc.2⟩

/-- Model of the executor's WHERE search. -/
def searchWhereNum (ql : List Char) : Option WhereCap := scanA whereNumAt ql

/-- Position matcher for `group by (\w+)` (`execute_complex_query`). -/
def groupAt (s : List Char) : Option (List Char) :=
  ((dropLit "group by ".data s).bind takeWord).map (·.1)

/-- Model of `re.search(r'group by (\w+)', ql)`. -/
def searchGroup (ql : List Char) : Option (List Char) := scanA groupAt ql

/-! ## Sorting

pandas `sort_values` orders rows by the key column.  For the theorems below
only two facts about the sort are used: it permutes the rows, and — for the
group-key lists, whose elements are single non-null values — it is a genuine
linear order, so that sorted permutations coincide.  The row sort uses the
kernel-computable cross-multiplication comparison `cellLe`; the key sort uses
`sortLe`, a total order on `Value` (numbers ordered by their rational value
with a representation tie-break, strings lexicographically; the placement of
the never-sorted `null` and of mixed-type comparisons is a modelling choice
that no settled claim observes). -/

/-- Kernel-computable comparison used to sort rows by a key cell. -/
def cellLe : Value → Value → Bool
  | .null, _ => true
  | .num _, .null => false
  | .num a, .num b => Frac.leB a b
  | .num _, .str _ => true
  | .str _, .null => false
  | .str _, .num _ => false
  | .str a, .str b => charsLe a.data b.data

/-- Total order on fractions: by rational value, ties broken by the
representation (numerator, then denominator). -/
def fracLeOrd (a b : Frac) : Bool :=
  decide (a.toRat < b.toRat) ||
    (decide (a.toRat = b.toRat) &&
      (decide (a.num < b.num) || (decide (a.num = b.num) && decide (a.den ≤ b.den))))

/-- Total order on cell values, used to sort the distinct group keys
(pandas `groupby` returns its groups in ascending key order). -/
def sortLe : Value → Value → Bool
  | .null, _ => true
  | .num _, .null => false
  | .num a, .num b => fracLeOrd a b
  | .num _, .str _ => true
  | .str _, .null => false
  | .str _, .num _ => false
  | .str a, .str b => charsLe a.data b.data

/-- Sort the rows by the named column (`df.sort_values(by=col, ascending=b)`).
If the column is missing the frame is returned unchanged; the executor only
calls this under an `in columns` guard. -/
def sortRowsBy (df : DataFrame) (w : List Char) (asc : Bool) : DataFrame :=
  match colIdx df.columns w with
  | none => df
  | some i =>
    { df with
      rows := List.insertionSort
        (fun r s =>
          (if asc then cellLe (cellAt r i) (cellAt s i)
           else cellLe (cellAt s i) (cellAt r i)) = true) df.rows }

/-- Model of `result.groupby(col).size().reset_index(name='count')`: the
distinct non-null key values in ascending order, each with the number of rows
carrying it.  pandas drops rows whose key is missing.  Numeric keys are
grouped by representation here; all inputs of the settled claims use
canonical representations, where this coincides with pandas. -/
def groupCounts (df : DataFrame) (w : List Char) : DataFrame :=
  match colIdx df.columns w with
  | none => df
  | some i =>
    let ks := df.rows.filterMap (fun r =>
      match cellAt r i with
      | .null => none
      | v => some v)
    let keys := List.insertionSort (fun a b => sortLe a b = true) ks.dedup
    { columns := [String.mk w, "count"],
      dtypes := [df.dtypes.getD i Dtype.obj, Dtype.int64],
      rows := keys.map (fun k =>
        [k, Value.num (Frac.ofInt (ks.countP (fun x => decide (x = k))))]) }

/-! ## `execute_complex_query` (tools/data_tools.py, lines 264-313)

The source lowercases the query once, then applies — in this fixed order —
ORDER BY, LIMIT, the single numeric WHERE clause, and GROUP BY.  Each clause
fires only if its regex matched and the captured (lowercased) column token is
a column of the intermediate result; otherwise it is skipped. -/

/-- Mask test for one of the five WHERE operators of the executor. -/
def whereOpTest (op : String) (cell : Value) (q : Frac) : Bool :=
  if op = ">" then mGt cell (Value.num q)
  else if op = "<" then mLt cell (Value.num q)
  else if op = ">=" then mGe cell (Value.num q)
  else if op = "<=" then mLe cell (Value.num q)
  else if op = "==" then mEq cell (Value.num q)
  else false

/-- Apply a captured WHERE clause (`result = result[result[col] <op> val]`).
The `float` conversion of the token happens here in the source and raises on
a malformed token; that raise is not modelled — the frame is returned
unchanged — and every settled claim either evaluates a well-formed token or
assumes no WHERE clause matched at all. -/
def applyWhereCap (df : DataFrame) (wc : WhereCap) : DataFrame :=
  match colIdx df.columns wc.col with
  | none => df
  | some i =>
    match fracOfToken wc.tok with
    | none => df
    | some q => { df with rows := df.rows.filter (fun r => whereOpTest wc.op (cellAt r i) q) }

/-- Model of `execute_complex_query(dataframe, query)`. -/
def execute_complex_query (df : DataFrame) (query : String) : DataFrame :=
  let ql := lowerS query
  let r1 :=
    match searchOrder ql with
    | some w =>
      if hasCol df.columns w then sortRowsBy df w (!containsSub "desc".data ql) else df
    | none => df
  let r2 :=
    match searchLimit ql with
    | some n => { r1 with rows := r1.rows.take n }
    | none => r1
  let r3 :=
    match searchWhereNum ql with
    | some wc => if hasCol r2.columns wc.col then applyWhereCap r2 wc else r2
    | none => r2
  match searchGroup ql with
  | some w => if hasCol r3.columns w then groupCounts r3 w else r3
  | none => r3

/-! ## `multi_condition_filter` (tools/data_tools.py, lines 316-359; an
identical copy lives in tools/advanced_data_tools.py, lines 258-311)

Conditions are dictionaries `{column, operator, value}`.  A condition whose
column is not in the frame is skipped (`continue`); a condition whose
operator is not one of `>`, `>=`, `<`, `<=`, `==`, `!=`, `contains`
contributes no mask either, because it matches none of the `elif` arms —
notably `between` and `in` are NOT handled in this path. -/

/-- A condition value: a scalar cell value or a list (as `between`/`in`
callers supply). -/
inductive FilterVal
  | scalar (v : Value)
  | listv (vs : List Value)
  deriving DecidableEq, Repr

/-- One parser/caller condition. -/
structure Cond where
  column : String
  operator : String
  value : FilterVal
  deriving DecidableEq, Repr

/-- The boolean mask one condition contributes, if any.  `none` models the
fall-through of the `elif` chain (unhandled operator).  A scalar-operator
condition carrying a list value would raise inside pandas' comparison; no
settled claim reaches that combination, and it is modelled as no mask. -/
def condMask (df : DataFrame) (c : Cond) : Option (List Value → Bool) :=
  match colIdx df.columns c.column.data with
  | none => none
  | some i =>
    match c.operator, c.value with
    | ">", .scalar v => some (fun r => mGt (cellAt r i) v)
    | ">=", .scalar v => some (fun r => mGe (cellAt r i) v)
    | "<", .scalar v => some (fun r => mLt (cellAt r i) v)
    | "<=", .scalar v => some (fun r => mLe (cellAt r i) v)
    | "==", .scalar v => some (fun r => mEq (cellAt r i) v)
    | "!=", .scalar v => some (fun r => !mEq (cellAt r i) v)
    | "contains", .scalar v => some (fun r => mContains (cellAt r i) v)
    | _, _ => none

/-- ASCII uppercase, the model of `logic.upper()`. -/
def upperS (s : String) : List Char :=
  s.data.map (fun c => if 'a' ≤ c && c ≤ 'z' then Char.ofNat (c.toNat - 32) else c)

/-- Model of `multi_condition_filter(dataframe, conditions, logic)`. -/
def multi_condition_filter (df : DataFrame) (conds : List Cond) (logic : String) :
    DataFrame :=
  if conds.isEmpty then df
  else
    let masks := conds.foldl (fun acc c =>
      if hasCol df.columns c.column.data then
        match condMask df c with
        | some m => acc ++ [m]
        | none => acc
      else acc) []
    match masks with
    | [] => df
    | m :: ms =>
      let combined :=
        if upperS logic = "AND".data then
          ms.foldl (fun f g => fun r => f r && g r) m
        else
          ms.foldl (fun f g => fun r => f r || g r) m
      { df with rows := df.rows.filter combined }

/-! ## `filter_dataframe` (tools/data_tools.py, lines 70-109)

The strict single filter: it returns the frame unchanged when the frame is
empty (`if dataframe.empty` comes FIRST), raises `ValueError` on an unknown
column otherwise, and dispatches on the lowercased condition name.  Errors
are modelled by `Except.error`; the source's wrapped/re-raised messages all
surface as `ValueError`, so only the error kind is kept. -/

/-- String form of a condition value (`str(value)`), for `contains`. -/
def filterValStr : FilterVal → List Char
  | .scalar v => valueStr v
  | .listv _ => "list".data

/-- Model of `filter_dataframe(column, condition, value, dataframe)`. -/
def filter_dataframe (column condition : String) (value : FilterVal) (df : DataFrame) :
    Except String DataFrame :=
  if df.rows.isEmpty then .ok df
  else if ¬ hasCol df.columns column.data then
    .error "Column not found. Available columns listed."
  else
    let i := (colIdx df.columns column.data).getD 0
    let c := lowerS condition
    if c = "greater".data || c = ">".data || c = "gt".data || c = "above".data then
      match value with
      | .scalar v => .ok { df with rows := df.rows.filter (fun r => mGt (cellAt r i) v) }
      | .listv _ => .error "Error filtering dataframe."
    else if c = "less".data || c = "<".data || c = "lt".data || c = "below".data then
      match value with
      | .scalar v => .ok { df with rows := df.rows.filter (fun r => mLt (cellAt r i) v) }
      | .listv _ => .error "Error filtering dataframe."
    else if c = "equal".data || c = "==".data || c = "eq".data || c = "equals".data then
      match value with
      | .scalar v => .ok { df with rows := df.rows.filter (fun r => mEq (cellAt r i) v) }
      | .listv _ => .error "Error filtering dataframe."
    else if c = "contains".data || c = "in".data || c = "includes".data then
      .ok { df with rows := df.rows.filter (fun r =>
        containsSub ((filterValStr value).map lowerChar) ((valueStr (cellAt r i)).map lowerChar)) }
    else if c = "between".data || c = "range".data then
      match value with
      | .listv [lo, hi] =>
        .ok { df with rows := df.rows.filter (fun r =>
          mGe (cellAt r i) lo && mLe (cellAt r i) hi) }
      | _ => .error "Between condition requires a list of min and max."
    else
      .error "Unknown condition."

/-! ## `group_by_aggregate` (tools/data_tools.py, lines 112-162) -/

/-- Distinct non-null key values of column `i`, in ascending order — the
groups of `df.groupby(col)`. -/
def groupKeys (df : DataFrame) (i : Nat) : List Value :=
  List.insertionSort (fun a b => sortLe a b = true)
    (df.rows.filterMap (fun r =>
      match cellAt r i with
      | .null => none
      | v => some v)).dedup

/-- Rows belonging to one group. -/
def groupRowsOf (df : DataFrame) (i : Nat) (k : Value) : List (List Value) :=
  df.rows.filter (fun r => decide (cellAt r i = k))

/-- One aggregation of a list of cells, skipping missing values as pandas
does.  `sum`, `max` and `min` also operate on string cells (pandas
concatenates strings under `sum` and compares them lexicographically under
`max`/`min`), so those three are computed on whichever kind the column
holds.  `mean`/`average`/`std`/`stddev` are numeric-only in pandas — on a
non-numeric column the groupby aggregation raises, a path `group_by_aggregate`
below surfaces as an error BEFORE this function is consulted, so here they
only ever see numeric cells.  A column mixing numbers and strings raises in
pandas for every arithmetic aggregate; the spec's data model makes columns
type-homogeneous, and no settled claim constructs a mixed column — the
embedding aggregates the numeric cells in that unreached corner.  The sample
standard deviation is irrational in general and its cell value is left as
missing; the settled claims concern only the shape and the error behaviour of
the aggregation, never a `std` cell. -/
def aggCell (f : List Char) (vals : List Value) : Value :=
  let nums := vals.filterMap (fun v =>
    match v with
    | .num a => some a
    | _ => none)
  let strs := vals.filterMap (fun v =>
    match v with
    | .str s => some s
    | _ => none)
  if f = "sum".data then
    if nums.isEmpty && !strs.isEmpty then
      Value.str (String.mk (strs.foldl (fun acc s => acc ++ s.data) []))
    else Value.num (nums.foldl Frac.add (Frac.ofInt 0))
  else if f = "mean".data || f = "average".data then
    if nums.isEmpty then Value.null
    else Value.num ((nums.foldl Frac.add (Frac.ofInt 0)).div (Frac.ofInt nums.length))
  else if f = "count".data then
    Value.num (Frac.ofInt ((vals.filter (fun v => decide (v ≠ Value.null))).length : Int))
  else if f = "max".data then
    match nums with
    | [] =>
      match strs with
      | [] => Value.null
      | s :: ss => Value.str (ss.foldl (fun a b => if charsLe a.data b.data then b else a) s)
    | n :: ns => Value.num (ns.foldl (fun a b => if Frac.leB a b then b else a) n)
  else if f = "min".data then
    match nums with
    | [] =>
      match strs with
      | [] => Value.null
      | s :: ss => Value.str (ss.foldl (fun a b => if charsLe b.data a.data then b else a) s)
    | n :: ns => Value.num (ns.foldl (fun a b => if Frac.leB b a then b else a) n)
  else Value.null

/-- The single-column result `grouped[agg_column].f().reset_index()`:
exactly the group column and the aggregated column. -/
def aggSingleTable (df : DataFrame) (gi ci : Nat) (g c : String) (f : List Char) :
    DataFrame :=
  { columns := [g, c],
    dtypes := [df.dtypes.getD gi Dtype.obj, df.dtypes.getD ci Dtype.obj],
    rows := (groupKeys df gi).map (fun k =>
      [k, aggCell f ((groupRowsOf df gi k).map (fun r => cellAt r ci))]) }

/-- Aggregation-function names the single-column `if/elif` chain recognises. -/
def singlePathFns : List (List Char) :=
  ["sum".data, "mean".data, "average".data, "count".data,
   "max".data, "min".data, "std".data, "stddev".data]

/-- The recognised function names whose pandas aggregation is numeric-only:
`grouped[col].mean()` / `.std()` raise on a non-numeric column (the raise is
caught by the source and re-raised as a `ValueError`).  `sum`, `count`, `max`
and `min` also work on object columns. -/
def numericOnlyFns : List (List Char) :=
  ["mean".data, "average".data, "std".data, "stddev".data]

/-- Aggregation-function names accepted in the all-numeric-columns branch:
`sum`, `mean`/`average` and `count` are special-cased, anything else is fed
to `grouped.agg(name)`, which accepts the standard pandas reduction names and
raises otherwise (the raise is wrapped into a `ValueError`). -/
def aggPathFns : List (List Char) :=
  ["sum".data, "mean".data, "average".data, "count".data,
   "max".data, "min".data, "std".data, "var".data, "median".data,
   "first".data, "last".data, "prod".data]

/-- The aggregate-every-numeric-column branch
(`select_dtypes(include=[np.number])` then the `sum`/`mean`/`count`
special cases or `grouped.agg(name)`), reached both when `agg_column` is
`None` and when it is given but absent.  A numeric GROUP column would be
selected too and then clash in `reset_index` (wrapped `ValueError`). -/
def aggAllNumeric (df : DataFrame) (group_by : String) (gi : Nat) (f : List Char) :
    Except String DataFrame :=
  if df.dtypes.getD gi Dtype.obj ≠ Dtype.obj then
    .error "Error in group by operation: cannot insert."
  else if aggPathFns.contains f then
    let numIdx := (List.range df.columns.length).filter
      (fun j => df.dtypes.getD j Dtype.obj ≠ Dtype.obj)
    .ok { columns := group_by :: numIdx.map (fun j => df.columns.getD j ""),
          dtypes := (df.dtypes.getD gi Dtype.obj) ::
            numIdx.map (fun j => df.dtypes.getD j Dtype.obj),
          rows := (groupKeys df gi).map (fun k =>
            k :: numIdx.map (fun j =>
              aggCell f ((groupRowsOf df gi k).map (fun r => cellAt r j)))) }
  else .error "Error in group by operation."

/-- Model of `group_by_aggregate(dataframe, group_by, agg_function,
agg_column)`.  Three behaviours of the source worth flagging:

* `if agg_column and agg_column in dataframe.columns:` — an `agg_column`
  that is given but absent silently falls through to the
  aggregate-every-numeric-column branch;
* for the numeric-only functions (`mean`/`average`/`std`/`stddev`) on a
  non-numeric aggregation column, the pandas aggregation itself raises; the
  `except` clause re-raises it as `ValueError("Error in group by operation:
  ...")` — this happens before `reset_index`, hence before the name-clash
  check below;
* `reset_index()` raises `cannot insert` when the aggregated column (or, in
  the all-numeric branch, a numeric group column) carries the same name as
  the group key; the raise is caught and re-raised as a `ValueError`. -/
def group_by_aggregate (df : DataFrame) (group_by agg_function : String)
    (agg_column : Option String) : Except String DataFrame :=
  if ¬ hasCol df.columns group_by.data then .error "Column not found."
  else
    match agg_column with
    | some c =>
      if hasCol df.columns c.data then
        if singlePathFns.contains (lowerS agg_function) then
          if numericOnlyFns.contains (lowerS agg_function) ∧
              df.dtypes.getD ((colIdx df.columns c.data).getD 0) Dtype.obj = Dtype.obj then
            .error "Error in group by operation."
          else if c = group_by then .error "Error in group by operation: cannot insert."
          else
            .ok (aggSingleTable df ((colIdx df.columns group_by.data).getD 0)
              ((colIdx df.columns c.data).getD 0) group_by c (lowerS agg_function))
        else .error "Unknown aggregation function."
      else
        aggAllNumeric df group_by ((colIdx df.columns group_by.data).getD 0)
          (lowerS agg_function)
    | none =>
      aggAllNumeric df group_by ((colIdx df.columns group_by.data).getD 0)
        (lowerS agg_function)

/-! ## `detect_outliers` (tools/data_tools.py, lines 165-200) -/

/-- Model of the numeric-dtype membership test
`dataframe[column].dtype not in [np.number]` (line 180).  The list member is
the abstract scalar class `np.number`, not a dtype: under legacy numpy,
`np.dtype(np.number)` converts (with a deprecation warning) to `float64`, so
the membership holds exactly for `float64` columns; under current numpy the
conversion fails inside `dtype.__eq__` and the membership holds for no dtype
at all.  Either way an `int64` column — a numeric column — fails the test and
the function raises.  The legacy behaviour is the one modelled. -/
def dtypeInNpNumberList (d : Dtype) : Bool := d = Dtype.float64

/-- Linear-interpolation quantile (pandas default).  The empty case yields 0
here where pandas yields NaN; with an all-missing column both produce an
empty outlier set, so the difference is unobservable in this development. -/
def quantileF (vals : List Frac) (p : Frac) : Frac :=
  let s := List.insertionSort (fun a b => Frac.leB a b = true) vals
  let n := s.length
  let h := (Frac.ofInt ((n - 1 : Nat) : Int)).mul p
  let i := (h.num / h.den).toNat
  let lo := s.getD i (Frac.ofInt 0)
  let hi := s.getD (i + 1) lo
  lo.add ((h.sub (Frac.ofInt (i : Int))).mul (hi.sub lo))

/-- Model of `detect_outliers(dataframe, column, method)`.  The z-score
branch uses the exact equivalence `|x − mean| / std > 3  ⟺
(x − mean)² > 9·var` (sample variance, ddof = 1); with fewer than two
numeric values, or zero variance, the pandas z-scores are NaN and every
comparison is False. -/
def detect_outliers (df : DataFrame) (column : String) (method : String) :
    Except String DataFrame :=
  if ¬ hasCol df.columns column.data then .error "Column not found."
  else
    let i := (colIdx df.columns column.data).getD 0
    if ¬ dtypeInNpNumberList (df.dtypes.getD i Dtype.obj) then
      .error "Column must be numeric for outlier detection."
    else
      let vals := df.rows.filterMap (fun r =>
        match cellAt r i with
        | .num a => some a
        | _ => none)
      if lowerS method = "iqr".data then
        let q1 := quantileF vals ⟨1, 4⟩
        let q3 := quantileF vals ⟨3, 4⟩
        let iqr := q3.sub q1
        let lb := q1.sub ((⟨3, 2⟩ : Frac).mul iqr)
        let ub := q3.add ((⟨3, 2⟩ : Frac).mul iqr)
        .ok { df with rows := df.rows.filter (fun r =>
          mLt (cellAt r i) (Value.num lb) || mGt (cellAt r i) (Value.num ub)) }
      else if lowerS method = "zscore".data then
        let n := vals.length
        if n < 2 then .ok { df with rows := [] }
        else
          let mean := (vals.foldl Frac.add (Frac.ofInt 0)).div (Frac.ofInt (n : Int))
          let var := (vals.foldl
              (fun acc x => acc.add ((x.sub mean).mul (x.sub mean)))
              (Frac.ofInt 0)).div (Frac.ofInt ((n - 1 : Nat) : Int))
          .ok { df with rows := df.rows.filter (fun r =>
            match cellAt r i with
            | .num x => Frac.ltB ((Frac.ofInt 9).mul var) ((x.sub mean).mul (x.sub mean))
            | _ => false) }
      else .error "Unknown method. Use iqr or zscore."

/-! ## The two `get_data_quality_summary` implementations
(tools/data_tools.py, lines 227-261, and tools/advanced_data_tools.py,
lines 8-52)

Both build, column by column, the same nine-entry record.  The advanced
variant additionally computes per-column range information for numeric
columns — including a "max" taken from the column MEAN — but never writes any
of it into the record it appends, so the computation is dead. -/

/-- Two-decimal percentage rendering, the model of `f"{x:.2f}%"`.  Rounding
is half-up on the exact value where Python rounds the nearest double
half-to-even; both implementations under comparison share this renderer, and
no settled claim evaluates a percentage at a rounding tie. -/
def fmtPct (x : Frac) : String :=
  let cents : Int := (x.num * 100 * 2 + x.den) / (2 * x.den)
  let ip := (cents / 100).toNat
  let fp := (cents % 100).toNat
  String.mk (Nat.toDigits 10 ip ++ '.' ::
    (if fp < 10 then '0' :: Nat.toDigits 10 fp else Nat.toDigits 10 fp) ++ ['%'])

/-- The fixed column list of the quality summary. -/
def qualityColumns : List String :=
  ["Column", "Data Type", "Total Rows", "Non-Null Count", "Null Count",
   "Null Percentage", "Unique Values", "Duplicates", "Completeness"]

/-- One record of the quality summary.  `nunique` ignores missing values;
`duplicated().sum()` counts every occurrence after the first of each value
(missing values compare equal to each other there), which is the length minus
the number of distinct values.  The 0-row percentage, NaN in pandas, renders
through the shared formatter here; both implementations agree on it. -/
def qualityRow (total : Nat) (name : String) (d : Dtype) (vs : List Value) :
    List Value :=
  let nullCount := (vs.filter (fun v => decide (v = Value.null))).length
  let nullPct := ((Frac.ofInt (nullCount : Int)).div
    (Frac.ofInt (total : Int))).mul (Frac.ofInt 100)
  [Value.str name,
   Value.str d.label,
   Value.num (Frac.ofInt (total : Int)),
   Value.num (Frac.ofInt ((vs.length - nullCount : Nat) : Int)),
   Value.num (Frac.ofInt (nullCount : Int)),
   Value.str (fmtPct nullPct),
   Value.num (Frac.ofInt (((vs.filter (fun v => decide (v ≠ Value.null))).dedup.length : Nat) : Int)),
   Value.num (Frac.ofInt ((vs.length - vs.dedup.length : Nat) : Int)),
   Value.str (fmtPct (((Frac.ofInt 1).sub (nullPct.div (Frac.ofInt 100))).mul (Frac.ofInt 100)))]

/-- Dtypes of the summary columns. -/
def qualityDtypes : List Dtype :=
  [Dtype.obj, Dtype.obj, Dtype.int64, Dtype.int64, Dtype.int64,
   Dtype.obj, Dtype.int64, Dtype.int64, Dtype.obj]

/-- Model of `data_tools.get_data_quality_summary(dataframe)`. -/
def get_data_quality_summary (df : DataFrame) : DataFrame :=
  { columns := qualityColumns,
    dtypes := qualityDtypes,
    rows := (List.range df.columns.length).map (fun i =>
      qualityRow df.rows.length (df.columns.getD i "") (df.dtypes.getD i Dtype.obj)
        (df.rows.map (fun r => cellAt r i))) }

/-- Minimum of the numeric cells (`series.min()`), missing when none. -/
def numMinCell (vs : List Value) : Value :=
  match vs.filterMap (fun v => match v with | .num a => some a | _ => none) with
  | [] => Value.null
  | n :: ns => Value.num (ns.foldl (fun a b => if Frac.leB b a then b else a) n)

/-- Mean of the numeric cells (`series.mean()`), missing when none. -/
def numMeanCell (vs : List Value) : Value :=
  match vs.filterMap (fun v => match v with | .num a => some a | _ => none) with
  | [] => Value.null
  | n :: ns =>
    Value.num (((n :: ns).foldl Frac.add (Frac.ofInt 0)).div
      (Frac.ofInt ((n :: ns).length : Int)))

/-- Model of `advanced_data_tools.get_data_quality_summary(dataframe)`: the
same loop, except that for numeric columns it also binds `min_val` to the
column minimum, `max_val` to the column MEAN (the defect noted in the source),
and `mean_val` to the mean — and then appends a record that uses none of the
three. -/
def advanced_get_data_quality_summary (df : DataFrame) : DataFrame :=
  { columns := qualityColumns,
    dtypes := qualityDtypes,
    rows := (List.range df.columns.length).map (fun i =>
      let vs := df.rows.map (fun r => cellAt r i)
      let d := df.dtypes.getD i Dtype.obj
      let _min_val : Value := if d ≠ Dtype.obj then numMinCell vs else Value.str "N/A"
      let _max_val : Value := if d ≠ Dtype.obj then numMeanCell vs else Value.str "N/A"
      let _mean_val : Value := if d ≠ Dtype.obj then numMeanCell vs else Value.str "N/A"
      qualityRow df.rows.length (df.columns.getD i "") d vs) }

/-! ## `parse_natural_language_query` (tools/advanced_data_tools.py,
lines 139-222) -/

/-- The operations dictionary the parser returns.  `aggregate` is always
`None` in the source: the `agg_patterns` list is built and never used. -/
structure Operations where
  select_columns : Option (List String)
  where_conditions : List Cond
  group_by : Option String
  order_by : Option String
  order_direction : String
  limit : Option Nat
  aggregate : Option String
  deriving DecidableEq, Repr

/-- Leftmost search for `lit(\w+)` (the shape of every ORDER BY / GROUP BY
pattern of this parser, whose literals end in a space or are `sort ` /
`group `). -/
def patWordSearch (lit : String) (ql : List Char) : Option (List Char) :=
  scanA (fun s => ((dropLit lit.data s).bind takeWord).map (·.1)) ql

/-- The parser's pattern loop: patterns tried in order, and — exactly as in
the source, where `break` sits inside the schema check — a pattern that
matches an unknown column does NOT stop the loop. -/
def firstKnownPat (cols : List String) (ql : List Char) : List String → Option (List Char)
  | [] => none
  | l :: ls =>
    match patWordSearch l ql with
    | some w => if hasCol cols w then some w else firstKnownPat cols ql ls
    | none => firstKnownPat cols ql ls

/-- WHERE pattern 1: `where (\w+)\s*(>|>=|<|<=|==|!=)\s*([\d.]+)` (note the
literal single space after `where` and the operator order, with `>` before
`>=` — reachable only through the failed-continuation backtracking that
`opAlt` reproduces).  A token on which `float` would raise makes the whole
pattern yield nothing here; on such an input the source crashes instead, and
no settled claim constrains it. -/
def whereP1At (s : List Char) : Option Cond :=
  ((dropLit "where ".data s).bind takeWord).bind fun wp =>
    (opAlt [">", ">=", "<", "<=", "==", "!="] (takeSpaces0 wp.2)).bind fun oc =>
      (fracOfToken oc.2).map fun q =>
        ⟨String.mk wp.1, oc.1, FilterVal.scalar (Value.num q)⟩

/-- WHERE pattern 2: `where (\w+)\s+is\s+([\w\s]+)`, value captured greedily
to the last word/space character and then stripped. -/
def whereP2At (s : List Char) : Option Cond :=
  ((dropLit "where ".data s).bind takeWord).bind fun wp =>
    (takeSpaces1 wp.2).bind fun r =>
      (dropLit "is".data r).bind fun r2 =>
        (takeSpaces1 r2).bind fun r3 =>
          (takeWordSpaces r3).map fun vp =>
            ⟨String.mk wp.1, "==", FilterVal.scalar (Value.str (String.mk (trimL vp.1)))⟩

/-- WHERE pattern 3: `where (\w+)\s+greater\s+than\s+([\d.]+)`. -/
def whereP3At (s : List Char) : Option Cond :=
  ((dropLit "where ".data s).bind takeWord).bind fun wp =>
    (takeSpaces1 wp.2).bind fun r =>
      (dropLit "greater".data r).bind fun r2 =>
        (takeSpaces1 r2).bind fun r3 =>
          (dropLit "than".data r3).bind fun r4 =>
            (takeSpaces1 r4).bind fun r5 =>
              (takeNumTok r5).bind fun tp =>
                (fracOfToken tp.1).map fun q =>
                  ⟨String.mk wp.1, ">", FilterVal.scalar (Value.num q)⟩

/-- WHERE pattern 4: `where (\w+)\s+less\s+than\s+([\d.]+)`. -/
def whereP4At (s : List Char) : Option Cond :=
  ((dropLit "where ".data s).bind takeWord).bind fun wp =>
    (takeSpaces1 wp.2).bind fun r =>
      (dropLit "less".data r).bind fun r2 =>
        (takeSpaces1 r2).bind fun r3 =>
          (dropLit "than".data r3).bind fun r4 =>
            (takeSpaces1 r4).bind fun r5 =>
              (takeNumTok r5).bind fun tp =>
                (fracOfToken tp.1).map fun q =>
                  ⟨String.mk wp.1, "<", FilterVal.scalar (Value.num q)⟩

/-- The first matches of the four WHERE patterns, in pattern order. -/
def whereMatches (ql : List Char) : List (Option Cond) :=
  [scanA whereP1At ql, scanA whereP2At ql, scanA whereP3At ql, scanA whereP4At ql]

/-- Model of `parse_natural_language_query(query, dataframe)`.  The WHERE
loop has no `break`: every pattern's first match whose column is known is
appended, in pattern order. -/
def parse_natural_language_query (query : String) (df : DataFrame) : Operations :=
  let ql := lowerS query
  let ob := firstKnownPat df.columns ql ["order by ", "sort by ", "sorted by ", "sort "]
  let gb := firstKnownPat df.columns ql ["group by ", "grouped by ", "group "]
  { select_columns := none,
    where_conditions := (whereMatches ql).foldl (fun acc o =>
      match o with
      | some c => if hasCol df.columns c.column.data then acc ++ [c] else acc
      | none => acc) [],
    group_by := gb.map String.mk,
    order_by := ob.map String.mk,
    order_direction :=
      if ob.isSome &&
          (containsSub "desc".data ql || containsSub "descending".data ql) then "desc"
      else "asc",
    limit := searchLimit ql,
    aggregate := none }

/-! ## The pipe-delimited strategy of `parse_text_to_dataframe`
(data-insights.py, lines 54-102)

Only the first extraction strategy — the pipe-table parser the settled claim
concerns — is embedded; the later fallbacks (correlation triples,
"query results" splitting, CSV sniffing) fire only when this one yields
nothing. -/

/-- A parsed text table (header names and string cells). -/
structure TextTable where
  cols : List String
  rows : List (List String)
  deriving DecidableEq, Repr

/-- The line-collection loop.  A line that contains `|` and starts (after
stripping) with `|` is taken as a table line — this branch is tested FIRST,
so a markdown separator row `|---|---|` is captured as a table line and the
`---` skip in the `elif` below it never sees it; that `elif` only skips
separator material that does not itself start with a pipe. -/
def collectPipeLines : List (List Char) → Bool → List (List Char)
  | [], _ => []
  | l :: rest, inT =>
    if containsSub "|".data l && isPrefixB "|".data (trimL l) then
      l :: collectPipeLines rest true
    else if inT && ((trimL l).isEmpty || containsSub "---".data l) then
      if containsSub "---".data l then collectPipeLines rest inT
      else []
    else if inT then []
    else collectPipeLines rest inT

/-- Clean one table line: strip, remove the outer pipes, split on `|`, strip
each cell. -/
def cleanPipeLine (l : List Char) : List String :=
  (splitChar '|' (stripPipes (trimL l))).map (fun p => String.mk (trimL p))

/-- Model of the pipe-table strategy of `parse_text_to_dataframe(text, _)`.
`none` models every path on which the strategy yields nothing (too few
usable lines, no data rows, the `pd.DataFrame` shape mismatch raise on a row
longer than the header, or an empty frame after dropping empty columns). -/
def parse_text_to_dataframe_pipe (text : String) : Option TextTable :=
  let tableLines := collectPipeLines (splitChar '\n' text.data) false
  let cleaned := tableLines.filterMap (fun l =>
    let ps := cleanPipeLine l
    if ¬ ps.isEmpty && ps.any (fun p => ¬ p.isEmpty) then some ps else none)
  match cleaned with
  | [] => none
  | [_] => none
  | headers :: dataRows =>
    let dataRows2 := dataRows.filter (fun row => row.any (fun c => ¬ c.isEmpty))
    if dataRows2.isEmpty then none
    else
      let maxCols := headers.length
      let padded := dataRows2.map (fun r => r ++ List.replicate (maxCols - r.length) "")
      if ¬ padded.all (fun r => r.length = maxCols) then none
      else
        let keep := (List.range maxCols).filter
          (fun j => padded.any (fun r => ¬ (r.getD j "").isEmpty))
        let t : TextTable :=
          ⟨keep.map (fun j => headers.getD j ""),
           padded.map (fun r => keep.map (fun j => r.getD j ""))⟩
        if t.cols.isEmpty || t.rows.isEmpty then none else some t

/-! ## Order properties of the key sort

`sortLe` is a total order on `Value`: this is what makes "sorted permutations
coincide", the only fact about pandas' key ordering the group-count theorems
rely on. -/

theorem charsLe_total : ∀ (a b : List Char), charsLe a b = true ∨ charsLe b a = true
  | [], _ => Or.inl rfl
  | _ :: _, [] => Or.inr rfl
  | a :: as, b :: bs => by
    rcases lt_trichotomy a b with h | h | h
    · left; simp [charsLe, h]
    · subst h
      rcases charsLe_total as bs with ih | ih
      · left; simp [charsLe, lt_irrefl, ih]
      · right; simp [charsLe, lt_irrefl, ih]
    · right; simp [charsLe, h]

theorem charsLe_trans : ∀ (a b c : List Char),
    charsLe a b = true → charsLe b c = true → charsLe a c = true
  | [], _, _ => by simp [charsLe]
  | _ :: _, [], _ => by simp [charsLe]
  | a :: as, b :: bs, [] => by simp [charsLe]
  | a :: as, b :: bs, c :: cs => by
    intro h1 h2
    simp only [charsLe] at h1 h2 ⊢
    by_cases hab : a < b
    · by_cases hbc : b < c
      · simp [lt_trans hab hbc]
      · by_cases hcb : c < b
        · simp [hbc, hcb] at h2
        · have hbc' : b = c := le_antisymm (not_lt.mp hcb) (not_lt.mp hbc)
          subst hbc'
          simp [hab]
    · by_cases hba : b < a
      · simp [hab, hba] at h1
      · have hab' : a = b := le_antisymm (not_lt.mp hba) (not_lt.mp hab)
        subst hab'
        simp only [lt_irrefl, if_false] at h1
        by_cases hac : a < c
        · simp [hac]
        · by_cases hca : c < a
          · simp [hac, hca] at h2
          · have hac' : a = c := le_antisymm (not_lt.mp hca) (not_lt.mp hac)
            subst hac'
            simp only [lt_irrefl, if_false] at h2 ⊢
            exact charsLe_trans as bs cs h1 h2

theorem charsLe_antisymm : ∀ (a b : List Char),
    charsLe a b = true → charsLe b a = true → a = b
  | [], [] => by intro _ _; rfl
  | [], _ :: _ => by simp [charsLe]
  | _ :: _, [] => by simp [charsLe]
  | a :: as, b :: bs => by
    intro h1 h2
    simp only [charsLe] at h1 h2
    by_cases hab : a < b
    · simp [hab, asymm hab] at h2
    · by_cases hba : b < a
      · simp [hab, hba] at h1
      · have hab' : a = b := le_antisymm (not_lt.mp hba) (not_lt.mp hab)
        subst hab'
        simp only [lt_irrefl, if_false] at h1 h2
        rw [charsLe_antisymm as bs h1 h2]

theorem fracLeOrd_total (a b : Frac) : fracLeOrd a b = true ∨ fracLeOrd b a = true := by
  unfold fracLeOrd
  rcases lt_trichotomy a.toRat b.toRat with h | h | h
  · left; simp [h]
  · rcases lt_trichotomy a.num b.num with h2 | h2 | h2
    · left; simp [h, h2]
    · rcases le_total a.den b.den with h3 | h3
      · left; simp [h, h2, h3, lt_irrefl]
      · right; simp [h.symm, h2.symm, h3, lt_irrefl]
    · right; simp [h.symm, h2, lt_irrefl]
  · right; simp [h]

theorem fracLeOrd_trans (a b c : Frac) (h1 : fracLeOrd a b = true)
    (h2 : fracLeOrd b c = true) : fracLeOrd a c = true := by
  unfold fracLeOrd at h1 h2 ⊢
  simp only [Bool.or_eq_true, Bool.and_eq_true, decide_eq_true_eq] at h1 h2 ⊢
  rcases h1 with h1 | ⟨hq1, h1⟩
  · rcases h2 with h2 | ⟨hq2, _⟩
    · exact Or.inl (lt_trans h1 h2)
    · exact Or.inl (hq2 ▸ h1)
  · rcases h2 with h2 | ⟨hq2, h2⟩
    · exact Or.inl (hq1 ▸ h2)
    · refine Or.inr ⟨hq1.trans hq2, ?_⟩
      rcases h1 with h1 | ⟨hn1, h1⟩
      · rcases h2 with h2 | ⟨hn2, _⟩
        · exact Or.inl (lt_trans h1 h2)
        · exact Or.inl (hn2 ▸ h1)
      · rcases h2 with h2 | ⟨hn2, h2⟩
        · exact Or.inl (hn1 ▸ h2)
        · exact Or.inr ⟨hn1.trans hn2, le_trans h1 h2⟩

theorem fracLeOrd_antisymm (a b : Frac) (h1 : fracLeOrd a b = true)
    (h2 : fracLeOrd b a = true) : a = b := by
  unfold fracLeOrd at h1 h2
  simp only [Bool.or_eq_true, Bool.and_eq_true, decide_eq_true_eq] at h1 h2
  rcases h1 with h1 | ⟨hq1, h1⟩
  · rcases h2 with h2 | ⟨hq2, _⟩
    · exact absurd h2 (asymm h1)
    · exact absurd h1 (hq2.symm ▸ lt_irrefl _)
  · rcases h2 with h2 | ⟨_, h2⟩
    · exact absurd h2 (hq1 ▸ lt_irrefl _)
    · rcases h1 with h1 | ⟨hn1, h1⟩
      · rcases h2 with h2 | ⟨hn2, _⟩
        · exact absurd h2 (asymm h1)
        · exact absurd h1 (hn2.symm ▸ lt_irrefl _)
      · rcases h2 with h2 | ⟨_, h2⟩
        · exact absurd h2 (hn1 ▸ lt_irrefl _)
        · have hd := le_antisymm h1 h2
          cases a; cases b; cases hn1; cases hd; rfl

theorem sortLe_total : ∀ (a b : Value), sortLe a b = true ∨ sortLe b a = true := by
  intro a b
  cases a <;> cases b <;> simp [sortLe]
  · exact fracLeOrd_total _ _
  · exact charsLe_total _ _

theorem sortLe_trans : ∀ (a b c : Value),
    sortLe a b = true → sortLe b c = true → sortLe a c = true := by
  intro a b c h1 h2
  cases a <;> cases b <;> cases c <;> simp_all [sortLe]
  · exact fracLeOrd_trans _ _ _ h1 h2
  · exact charsLe_trans _ _ _ h1 h2

theorem sortLe_antisymm : ∀ (a b : Value),
    sortLe a b = true → sortLe b a = true → a = b := by
  intro a b h1 h2
  cases a <;> cases b <;> simp_all [sortLe]
  · exact fracLeOrd_antisymm _ _ h1 h2
  · exact String.ext (charsLe_antisymm _ _ h1 h2)

instance : IsTotal Value (fun a b => sortLe a b = true) := ⟨sortLe_total⟩

instance : IsTrans Value (fun a b => sortLe a b = true) := ⟨sortLe_trans⟩

instance : IsAntisymm Value (fun a b => sortLe a b = true) := ⟨sortLe_antisymm⟩

/-! ## Group counts are invariant under row permutation

Sorting (any clause that only reorders rows) cannot change per-group sizes:
the key multiset is preserved, so both the ascending distinct-key list and
each key's count coincide. -/

theorem groupCounts_perm (df df' : DataFrame) (w : List Char)
    (hc : df.columns = df'.columns) (hd : df.dtypes = df'.dtypes)
    (hp : df.rows.Perm df'.rows)
    (hi : (colIdx df.columns w).isSome = true) :
    groupCounts df w = groupCounts df' w := by
  unfold groupCounts
  rw [← hc, ← hd]
  cases h : colIdx df.columns w with
  | none => rw [h] at hi; exact absurd hi (by simp)
  | some i =>
    simp only [h]
    have hks : (df.rows.filterMap (fun r =>
        match cellAt r i with
        | .null => none
        | v => some v)).Perm (df'.rows.filterMap (fun r =>
        match cellAt r i with
        | .null => none
        | v => some v)) := hp.filterMap _
    have hkeys :
        List.insertionSort (fun a b => sortLe a b = true)
          (df.rows.filterMap (fun r =>
            match cellAt r i with
            | .null => none
            | v => some v)).dedup =
        List.insertionSort (fun a b => sortLe a b = true)
          (df'.rows.filterMap (fun r =>
            match cellAt r i with
            | .null => none
            | v => some v)).dedup :=
      List.eq_of_perm_of_sorted
        ((List.perm_insertionSort _ _).trans
          ((hks.dedup).trans (List.perm_insertionSort _ _).symm))
        (List.sorted_insertionSort _ _) (List.sorted_insertionSort _ _)
    simp only [hkeys]
    congr 1
    apply List.map_congr_left
    intro k _
    simp only [hks.countP_eq]

/-! ## Claim C2 — amended general theorem -/

/-- C2 (amended, general part): when a GROUP BY clause names a known column
and the command contains no LIMIT and no numeric WHERE clause, the result of
`execute_complex_query` is exactly the per-group row count of the INPUT
table — any ORDER BY clause only permutes the rows and is discarded by the
grouping. -/
theorem execute_group_by_replaces (df : DataFrame) (q : String) (g : List Char)
    (hg : searchGroup (lowerS q) = some g)
    (hcol : hasCol df.columns g = true)
    (hl : searchLimit (lowerS q) = none)
    (hw : searchWhereNum (lowerS q) = none) :
    execute_complex_query df q = groupCounts df g := by
  unfold execute_complex_query
  simp only [hg, hl, hw]
  cases ho : searchOrder (lowerS q) with
  | none => simp only [hcol, if_true]
  | some w =>
    by_cases hw2 : hasCol df.columns w = true
    · simp only [hw2, if_true]
      unfold sortRowsBy
      cases hci : colIdx df.columns w with
      | none => simp only [hcol, if_true]
      | some i =>
        simp only [hcol, if_true]
        exact groupCounts_perm _ _ _ rfl rfl (List.perm_insertionSort _ _) hcol
    · simp [hw2, hcol]

/-! ## Concrete tables used by the claim theorems -/

/-- The spec's ORDER BY example: one column `Amount` with rows 10, 50, 30. -/
def dfAmountCap : DataFrame :=
  ⟨["Amount"], [Dtype.int64],
   [[Value.num ⟨10, 1⟩], [Value.num ⟨50, 1⟩], [Value.num ⟨30, 1⟩]]⟩

/-- The same rows under a lowercase column name `amount`. -/
def dfAmountLow : DataFrame :=
  ⟨["amount"], [Dtype.int64],
   [[Value.num ⟨10, 1⟩], [Value.num ⟨50, 1⟩], [Value.num ⟨30, 1⟩]]⟩

/-- The spec's GROUP BY example rows (key column only): 'a', 'b', 'a'. -/
def dfStatus : DataFrame :=
  ⟨["status"], [Dtype.obj], [[Value.str "a"], [Value.str "b"], [Value.str "a"]]⟩

/-! ## Claim C1 -/

/-- C1: the clause precedence of `execute_complex_query` is as claimed, but
the spec's own example fails on the code: the query is lowercased before the
captured column token is compared (case-sensitively) against the column
names, so on a table whose column is `Amount` the ORDER BY clause of
`order by Amount desc limit 2` is silently dropped and the result is the
FIRST two rows, 10 then 50 — not the two largest.  The second conjunct shows
the identical query against a lowercase `amount` column, where the clause
fires and the claimed result 50, 30 appears: the failure is exactly the
case-handling slip. -/
theorem execute_order_by_case_bug :
    execute_complex_query dfAmountCap "order by Amount desc limit 2" =
      ⟨["Amount"], [Dtype.int64], [[Value.num ⟨10, 1⟩], [Value.num ⟨50, 1⟩]]⟩ ∧
    execute_complex_query dfAmountLow "order by amount desc limit 2" =
      ⟨["amount"], [Dtype.int64], [[Value.num ⟨50, 1⟩], [Value.num ⟨30, 1⟩]]⟩ := by
  constructor
  · rfl
  · rfl

/-! ## Claim C2 — counterexample and witness -/

/-- C2 (counterexample): GROUP BY does NOT discard a preceding LIMIT's effect
on the counts.  On the 3-row table with groups a (size 2) and b (size 1), the
command `limit 1 group by status` keeps one row before grouping, and the
result reports a single group `a` with count 1 — not the input table's group
sizes, although the command's GROUP BY names a known column. -/
theorem execute_group_by_after_limit_counterexample :
    execute_complex_query dfStatus "limit 1 group by status" =
      ⟨["status", "count"], [Dtype.obj, Dtype.int64],
       [[Value.str "a", Value.num ⟨1, 1⟩]]⟩ ∧
    dfStatus.rows.countP (fun r => decide (cellAt r 0 = Value.str "a")) = 2 := by
  constructor
  · rfl
  · rfl

/-- C2 (witness): the amended theorem applied to the spec's own example —
`group by status` with no LIMIT/WHERE clause returns the input table's true
group sizes a ↦ 2, b ↦ 1. -/
theorem execute_group_by_replaces_witness :
    searchGroup (lowerS "group by status") = some "status".data ∧
    hasCol dfStatus.columns "status".data = true ∧
    searchLimit (lowerS "group by status") = none ∧
    searchWhereNum (lowerS "group by status") = none ∧
    execute_complex_query dfStatus "group by status" = groupCounts dfStatus "status".data ∧
    groupCounts dfStatus "status".data =
      ⟨["status", "count"], [Dtype.obj, Dtype.int64],
       [[Value.str "a", Value.num ⟨2, 1⟩], [Value.str "b", Value.num ⟨1, 1⟩]]⟩ :=
  ⟨by decide, by decide, by decide, by decide,
   execute_group_by_replaces dfStatus "group by status" "status".data
     (by decide) (by decide) (by decide) (by decide),
   by decide⟩

/-! ## Claim C3 -/

/-- C3: a markdown separator row is NOT skipped by the pipe-table strategy.
On the spec's example text the collected lines include `|---|---|` (it starts
with `|`, so the first branch of the loop captures it before the `---` skip
is consulted), and the parsed table has THREE data rows, the first of them
`("---", "---")` — not the claimed two rows. -/
theorem pipe_table_separator_row_bug :
    parse_text_to_dataframe_pipe "| A | B |\n|---|---|\n| 1 | 2 |\n| 3 | 4 |" =
      some ⟨["A", "B"], [["---", "---"], ["1", "2"], ["3", "4"]]⟩ := by
  rfl

/-! ## Claim C4 -/

theorem whereFold_length_le (cols : List String) :
    ∀ (os : List (Option Cond)) (acc : List Cond),
    (os.foldl (fun acc o =>
      match o with
      | some c => if hasCol cols c.column.data then acc ++ [c] else acc
      | none => acc) acc).length ≤ acc.length + os.length := by
  intro os
  induction os with
  | nil => intro acc; simp
  | cons o os ih =>
    intro acc
    have hstep : (match o with
        | some c => if hasCol cols c.column.data then acc ++ [c] else acc
        | none => acc).length ≤ acc.length + 1 := by
      cases o with
      | none => simp
      | some c =>
        by_cases h : hasCol cols c.column.data = true
        · simp [h]
        · simp [h]
    calc (((o :: os).foldl _ acc)).length
        ≤ (match o with
            | some c => if hasCol cols c.column.data then acc ++ [c] else acc
            | none => acc).length + os.length := ih _
      _ ≤ acc.length + 1 + os.length := by omega
      _ = acc.length + (o :: os).length := by simp; omega

/-- C4 (amended): the Query Parser's WHERE extraction never accumulates more
than four conditions — each of its four recognised phrasings contributes at
most its first match.  (The original claim of at most ONE condition fails:
the pattern loop has no `break`, so distinct phrasings accumulate, see the
counterexample.) -/
theorem parse_where_at_most_four (q : String) (df : DataFrame) :
    (parse_natural_language_query q df).where_conditions.length ≤ 4 := by
  have h := whereFold_length_le df.columns (whereMatches (lowerS q)) []
  simp only [parse_natural_language_query]
  calc ((whereMatches (lowerS q)).foldl _ []).length
      ≤ ([] : List Cond).length + (whereMatches (lowerS q)).length := h
    _ = 4 := by simp [whereMatches]
    _ ≤ 4 := le_refl 4

/-- C4 (counterexample): on a schema with columns `a`, `b`, the single
command `where a > 1 where b is y` contains two WHERE fragments matching two
different recognised phrasings, and the parser returns BOTH conditions —
refuting "the Operation it returns never contains two or more conditions". -/
theorem parse_where_two_conditions_counterexample :
    (parse_natural_language_query "where a > 1 where b is y"
        ⟨["a", "b"], [Dtype.int64, Dtype.obj], [[Value.num ⟨1, 1⟩, Value.str "x"]]⟩
      ).where_conditions =
      [⟨"a", ">", FilterVal.scalar (Value.num ⟨1, 1⟩)⟩,
       ⟨"b", "==", FilterVal.scalar (Value.str "y")⟩] := by
  rfl

/-! ## Claim C5 -/

theorem condMask_between_none (df : DataFrame) (col : String) (v : FilterVal) :
    condMask df ⟨col, "between", v⟩ = none := by
  unfold condMask
  cases colIdx df.columns col.data with
  | none => rfl
  | some i => cases v <;> rfl

theorem multi_skip_no_mask (df : DataFrame) (c : Cond) (rest : List Cond) (logic : String)
    (hmask : condMask df c = none) :
    multi_condition_filter df (c :: rest) logic = multi_condition_filter df rest logic := by
  cases rest with
  | nil =>
    unfold multi_condition_filter
    by_cases h : hasCol df.columns c.column.data = true
    · simp [h, hmask]
    · simp [h]
  | cons d ds =>
    unfold multi_condition_filter
    have hfold : List.foldl (fun (acc : List (List Value → Bool)) (c : Cond) =>
        if hasCol df.columns c.column.data then
          match condMask df c with
          | some m => acc ++ [m]
          | none => acc
        else acc) [] (c :: d :: ds) =
        List.foldl (fun (acc : List (List Value → Bool)) (c : Cond) =>
        if hasCol df.columns c.column.data then
          match condMask df c with
          | some m => acc ++ [m]
          | none => acc
        else acc) [] (d :: ds) := by
      rw [List.foldl_cons]
      congr 1
      by_cases h : hasCol df.columns c.column.data = true
      · simp [h, hmask]
      · simp [h]
    simp only [List.isEmpty_cons, hfold]

/-- C5 (amended): `between` is inclusive on both endpoints in the STRICT
single-filter operation — on a non-empty frame with a known column it keeps
exactly the rows whose cell passes `lo <= x` and `x <= hi`, and on
well-formed numeric cells that boolean test is precisely
`lo ≤ x ∧ x ≤ hi` over ℚ (second conjunct).  The multi-condition path,
however, does NOT implement `between` at all: such a condition contributes no
mask and the filter behaves as if the condition were absent (third conjunct).
The original claim asserted the inclusive filtering for both paths. -/
theorem filter_between_inclusive_strict_and_ignored_in_multi
    (df : DataFrame) (col : String) (lo hi : Frac)
    (hne : df.rows.isEmpty = false)
    (hcol : hasCol df.columns col.data = true)
    (hlo : 0 < lo.den) (hhi : 0 < hi.den) :
    (filter_dataframe col "between" (FilterVal.listv [Value.num lo, Value.num hi]) df =
      Except.ok { df with rows := df.rows.filter (fun r =>
        mGe (cellAt r ((colIdx df.columns col.data).getD 0)) (Value.num lo) &&
        mLe (cellAt r ((colIdx df.columns col.data).getD 0)) (Value.num hi)) }) ∧
    (∀ q : Frac, 0 < q.den →
      ((mGe (Value.num q) (Value.num lo) && mLe (Value.num q) (Value.num hi)) = true ↔
        (lo.toRat ≤ q.toRat ∧ q.toRat ≤ hi.toRat))) ∧
    (∀ (v : FilterVal) (rest : List Cond) (logic : String),
      multi_condition_filter df (⟨col, "between", v⟩ :: rest) logic =
        multi_condition_filter df rest logic) := by
  refine ⟨?_, ?_, ?_⟩
  · unfold filter_dataframe
    simp only [hne, hcol]
    rw [if_neg (by decide), if_neg (by decide), if_neg (by decide), if_neg (by decide),
      if_neg (by decide), if_neg (by decide), if_pos (by decide)]
  · intro q hq
    simp only [mGe, mLe, Bool.and_eq_true]
    rw [Frac.leB_iff_toRat lo q hlo hq, Frac.leB_iff_toRat q hi hq hhi]
  · intro v rest logic
    exact multi_skip_no_mask df _ rest logic (condMask_between_none df col v)

/-- A one-column numeric table with rows 1, 2, 3. -/
def dfV3 : DataFrame :=
  ⟨["v"], [Dtype.int64], [[Value.num ⟨1, 1⟩], [Value.num ⟨2, 1⟩], [Value.num ⟨3, 1⟩]]⟩

/-- C5 (counterexample): in the multi-condition path a `between [1, 2]`
condition on the known column `v` is silently ignored — the filter returns
all three rows, including the row with value 3, which is outside the
inclusive range (second conjunct: `3 <= 2` fails).  This refutes the claim
for the multi-condition Condition Evaluator path. -/
theorem multi_between_ignored_counterexample :
    multi_condition_filter dfV3
        [⟨"v", "between", FilterVal.listv [Value.num ⟨1, 1⟩, Value.num ⟨2, 1⟩]⟩] "AND" =
      dfV3 ∧
    dfV3.rows.length = 3 ∧
    mLe (Value.num ⟨3, 1⟩) (Value.num ⟨2, 1⟩) = false := by
  exact ⟨rfl, rfl, rfl⟩

/-- C5 (witness): the amended theorem applied to the 1,2,3 table with the
inclusive range [1, 2]; the strict filter keeps exactly rows 1 and 2. -/
theorem filter_between_inclusive_witness :
    dfV3.rows.isEmpty = false ∧ hasCol dfV3.columns "v".data = true ∧
    ((filter_dataframe "v" "between"
        (FilterVal.listv [Value.num ⟨1, 1⟩, Value.num ⟨2, 1⟩]) dfV3 =
      Except.ok { dfV3 with rows := dfV3.rows.filter (fun r =>
        mGe (cellAt r ((colIdx dfV3.columns "v".data).getD 0)) (Value.num ⟨1, 1⟩) &&
        mLe (cellAt r ((colIdx dfV3.columns "v".data).getD 0)) (Value.num ⟨2, 1⟩)) }) ∧
    (∀ q : Frac, 0 < q.den →
      ((mGe (Value.num q) (Value.num ⟨1, 1⟩) && mLe (Value.num q) (Value.num ⟨2, 1⟩)) = true ↔
        ((⟨1, 1⟩ : Frac).toRat ≤ q.toRat ∧ q.toRat ≤ (⟨2, 1⟩ : Frac).toRat))) ∧
    (∀ (v : FilterVal) (rest : List Cond) (logic : String),
      multi_condition_filter dfV3 (⟨"v", "between", v⟩ :: rest) logic =
        multi_condition_filter dfV3 rest logic)) ∧
    dfV3.rows.filter (fun r =>
        mGe (cellAt r 0) (Value.num ⟨1, 1⟩) && mLe (cellAt r 0) (Value.num ⟨2, 1⟩)) =
      [[Value.num ⟨1, 1⟩], [Value.num ⟨2, 1⟩]] :=
  ⟨by decide, by decide,
   filter_between_inclusive_strict_and_ignored_in_multi dfV3 "v" ⟨1, 1⟩ ⟨2, 1⟩
     (by decide) (by decide) (by decide) (by decide),
   by decide⟩

/-! ## Claim C6 -/

/-- The outlier-detection example column [1, 2, 3, 4, 100] as an `int64`
column. -/
def dfOutInt : DataFrame :=
  ⟨["v"], [Dtype.int64],
   [[Value.num ⟨1, 1⟩], [Value.num ⟨2, 1⟩], [Value.num ⟨3, 1⟩],
    [Value.num ⟨4, 1⟩], [Value.num ⟨100, 1⟩]]⟩

/-- The same column as `float64`. -/
def dfOutFloat : DataFrame :=
  ⟨["v"], [Dtype.float64],
   [[Value.num ⟨1, 1⟩], [Value.num ⟨2, 1⟩], [Value.num ⟨3, 1⟩],
    [Value.num ⟨4, 1⟩], [Value.num ⟨100, 1⟩]]⟩

/-- C6: the numeric-dtype gate of `detect_outliers` is broken.  On the
`int64` column [1, 2, 3, 4, 100] — a numeric column — the function raises
"must be numeric" (first conjunct), because `dtype not in [np.number]`
compares a concrete dtype against the abstract class `np.number`, a test an
integer dtype never passes.  The second conjunct shows that when the gate is
passed (a `float64` column), the IQR method computes Q1 = 2, Q3 = 4,
fences [−1, 7], and flags exactly the value 100, as the claim states. -/
theorem detect_outliers_dtype_gate_bug :
    detect_outliers dfOutInt "v" "iqr" =
      Except.error "Column must be numeric for outlier detection." ∧
    detect_outliers dfOutFloat "v" "iqr" =
      Except.ok ⟨["v"], [Dtype.float64], [[Value.num ⟨100, 1⟩]]⟩ := by
  exact ⟨rfl, rfl⟩

/-! ## Claim C7 -/

/-- The predicate one condition denotes (its mask, or vacuously true when it
contributes none — the hypotheses of the theorems below rule the latter out). -/
def condHolds (df : DataFrame) (c : Cond) (r : List Value) : Bool :=
  ((condMask df c).getD (fun _ => true)) r

theorem masks_foldl_eq (df : DataFrame) :
    ∀ (conds : List Cond) (acc : List (List Value → Bool)),
    (∀ c ∈ conds, hasCol df.columns c.column.data = true ∧ (condMask df c).isSome = true) →
    conds.foldl (fun acc c =>
      if hasCol df.columns c.column.data then
        match condMask df c with
        | some m => acc ++ [m]
        | none => acc
      else acc) acc = acc ++ conds.map (fun c => (condMask df c).getD (fun _ => true)) := by
  intro conds
  induction conds with
  | nil => intro acc _; simp
  | cons c cs ih =>
    intro acc h
    have hc := h c (List.mem_cons_self c cs)
    have hcs : ∀ d ∈ cs, hasCol df.columns d.column.data = true ∧
        (condMask df d).isSome = true := fun d hd => h d (List.mem_cons_of_mem c hd)
    simp only [List.foldl_cons]
    cases hm : condMask df c with
    | none => rw [hm] at hc; simp at hc
    | some m =>
      rw [ih _ hcs]
      simp [hc.1, hm]

theorem foldl_and_eval (r : List Value) :
    ∀ (ms : List (List Value → Bool)) (m : List Value → Bool),
    (ms.foldl (fun f g => fun r => f r && g r) m) r = (m r && ms.all (fun g => g r)) := by
  intro ms
  induction ms with
  | nil => intro m; simp
  | cons g gs ih =>
    intro m
    rw [List.foldl_cons, ih]
    simp [Bool.and_assoc]

theorem foldl_or_eval (r : List Value) :
    ∀ (ms : List (List Value → Bool)) (m : List Value → Bool),
    (ms.foldl (fun f g => fun r => f r || g r) m) r = (m r || ms.any (fun g => g r)) := by
  intro ms
  induction ms with
  | nil => intro m; simp
  | cons g gs ih =>
    intro m
    rw [List.foldl_cons, ih]
    simp [Bool.or_assoc]

theorem masks_foldl_filter_known (df : DataFrame) :
    ∀ (conds : List Cond) (acc : List (List Value → Bool)),
    (conds.filter (fun c => hasCol df.columns c.column.data)).foldl (fun acc c =>
      if hasCol df.columns c.column.data then
        match condMask df c with
        | some m => acc ++ [m]
        | none => acc
      else acc) acc = conds.foldl (fun acc c =>
      if hasCol df.columns c.column.data then
        match condMask df c with
        | some m => acc ++ [m]
        | none => acc
      else acc) acc := by
  intro conds
  induction conds with
  | nil => intro acc; rfl
  | cons c cs ih =>
    intro acc
    by_cases h : hasCol df.columns c.column.data = true
    · rw [@List.filter_cons_of_pos Cond (fun c => hasCol df.columns c.column.data) c cs h]
      simp only [List.foldl_cons]
      exact ih _
    · rw [@List.filter_cons_of_neg Cond (fun c => hasCol df.columns c.column.data) c cs h]
      simp only [List.foldl_cons]
      rw [ih]
      congr 1
      simp [h]

theorem all_map_general {α β : Type} (l : List α) (f : α → β) (p : β → Bool) :
    (l.map f).all p = l.all (fun a => p (f a)) := by
  induction l with
  | nil => rfl
  | cons a l ih => simp [ih]

theorem any_map_general {α β : Type} (l : List α) (f : α → β) (p : β → Bool) :
    (l.map f).any p = l.any (fun a => p (f a)) := by
  induction l with
  | nil => rfl
  | cons a l ih => simp [ih]

/-- C7: multi-condition filtering is as claimed.  An empty condition list is
the identity (first conjunct); conditions naming unknown columns are silently
dropped — filtering with only the known-column conditions gives the same
result (second conjunct); and when every condition names a known column and a
handled operator, AND logic keeps exactly the rows satisfying EVERY
condition's predicate (the intersection of the per-condition row sets) while
OR logic keeps exactly the rows satisfying SOME condition's predicate (their
union), order preserved (third conjunct). -/
theorem multi_condition_filter_spec (df : DataFrame) (conds : List Cond) (logic : String) :
    (conds = [] → multi_condition_filter df conds logic = df) ∧
    (multi_condition_filter df
        (conds.filter (fun c => hasCol df.columns c.column.data)) logic =
      multi_condition_filter df conds logic) ∧
    ((∀ c ∈ conds, hasCol df.columns c.column.data = true ∧ (condMask df c).isSome = true) →
      (upperS logic = "AND".data →
        multi_condition_filter df conds logic =
          { df with rows := df.rows.filter (fun r => conds.all (fun c => condHolds df c r)) }) ∧
      (conds ≠ [] → upperS logic ≠ "AND".data →
        multi_condition_filter df conds logic =
          { df with rows := df.rows.filter (fun r => conds.any (fun c => condHolds df c r)) })) := by
  refine ⟨?_, ?_, ?_⟩
  · intro h; subst h; rfl
  · -- skipping unknown columns is invisible
    unfold multi_condition_filter
    cases hc : conds with
    | nil => simp
    | cons c cs =>
      rw [masks_foldl_filter_known df (c :: cs) []]
      cases hf : (c :: cs).filter (fun c => hasCol df.columns c.column.data) with
      | nil =>
        -- every condition names an unknown column: the mask list is empty
        have hm : (c :: cs).foldl (fun acc c =>
            if hasCol df.columns c.column.data then
              match condMask df c with
              | some m => acc ++ [m]
              | none => acc
            else acc) [] = [] := by
          rw [← masks_foldl_filter_known df (c :: cs) [], hf]
          rfl
        simp [hm]

      | cons d ds => simp
  · intro h
    constructor
    · intro hand
      cases hc : conds with
      | nil =>
        simp only [multi_condition_filter]
        simp
      | cons c cs =>
        subst hc
        unfold multi_condition_filter
        rw [masks_foldl_eq df (c :: cs) [] h]
        simp only [List.nil_append, List.map_cons, List.isEmpty_cons, hand,
          Bool.false_eq_true, if_false, eq_self_iff_true, if_true]
        congr 1
        apply List.filter_congr
        intro r _
        rw [foldl_and_eval, all_map_general]
        rfl
    · intro hne hnand
      cases hc : conds with
      | nil => exact absurd hc hne
      | cons c cs =>
        subst hc
        unfold multi_condition_filter
        rw [masks_foldl_eq df (c :: cs) [] h]
        simp only [List.nil_append, List.map_cons, List.isEmpty_cons,
          Bool.false_eq_true, if_false]
        rw [if_neg hnand]
        congr 1
        apply List.filter_congr
        intro r _
        rw [foldl_or_eval, any_map_general]
        rfl

/-- The two-condition AND/OR example conditions 1 < v < 3 over `dfV3`. -/
def condsGtLt : List Cond :=
  [⟨"v", ">", FilterVal.scalar (Value.num ⟨1, 1⟩)⟩,
   ⟨"v", "<", FilterVal.scalar (Value.num ⟨3, 1⟩)⟩]

/-- C7 (witness): on the 1,2,3 table with conditions `v > 1` and `v < 3`,
both known and handled, AND logic keeps exactly the intersection — the single
row 2. -/
theorem multi_condition_filter_spec_witness :
    (∀ c ∈ condsGtLt, hasCol dfV3.columns c.column.data = true ∧
      (condMask dfV3 c).isSome = true) ∧
    multi_condition_filter dfV3 condsGtLt "AND" =
      { dfV3 with rows := dfV3.rows.filter (fun r =>
        condsGtLt.all (fun c => condHolds dfV3 c r)) } ∧
    dfV3.rows.filter (fun r => condsGtLt.all (fun c => condHolds dfV3 c r)) =
      [[Value.num ⟨2, 1⟩]] :=
  ⟨by decide,
   ((multi_condition_filter_spec dfV3 condsGtLt "AND").2.2 (by decide)).1 rfl,
   by decide⟩

/-! ## Claim C8 -/

/-- C8 (amended): the intended asymmetry holds on non-empty tables.  For a
condition naming a column absent from a NON-EMPTY table, the strict single
filter fails with the column-not-found error, while the multi-condition path
silently ignores the condition — filtering with it present equals filtering
without it, for every operator, value, remaining conditions and logic.  (The
original claim, quantified over every table, fails on the empty table: the
source checks `dataframe.empty` BEFORE the column check and returns the frame
unchanged — see the counterexample.) -/
theorem filter_unknown_column_asymmetry (df : DataFrame) (col condition : String)
    (v : FilterVal) (op : String) (fv : FilterVal) (rest : List Cond) (logic : String)
    (hne : df.rows.isEmpty = false)
    (hcol : hasCol df.columns col.data = false) :
    filter_dataframe col condition v df =
      Except.error "Column not found. Available columns listed." ∧
    multi_condition_filter df (⟨col, op, fv⟩ :: rest) logic =
      multi_condition_filter df rest logic := by
  constructor
  · unfold filter_dataframe
    rw [if_neg (by simp [hne]), if_pos (by simp [hcol])]
  · apply multi_skip_no_mask
    have hnone : colIdx df.columns col.data = none := by
      cases h : colIdx df.columns col.data with
      | none => rfl
      | some i => rw [hasCol, h] at hcol; simp at hcol
    unfold condMask
    rw [hnone]

/-- A table with a column but no rows (`dataframe.empty` is true). -/
def dfEmptyA : DataFrame := ⟨["a"], [Dtype.int64], []⟩

/-- C8 (counterexample): on an EMPTY table the strict filter does NOT fail
for the unknown column `b` — `if dataframe.empty` returns the frame before
the column check runs.  This refutes "fails ... for every condition naming a
column absent from the table". -/
theorem filter_empty_frame_counterexample :
    filter_dataframe "b" "greater" (FilterVal.scalar (Value.num ⟨0, 1⟩)) dfEmptyA =
      Except.ok dfEmptyA ∧
    hasCol dfEmptyA.columns "b".data = false := ⟨rfl, rfl⟩

/-- C8 (witness): the amended theorem applied to the non-empty 1,2,3 table
and the absent column `w`. -/
theorem filter_unknown_column_asymmetry_witness :
    dfV3.rows.isEmpty = false ∧ hasCol dfV3.columns "w".data = false ∧
    (filter_dataframe "w" "greater" (FilterVal.scalar (Value.num ⟨0, 1⟩)) dfV3 =
        Except.error "Column not found. Available columns listed." ∧
      multi_condition_filter dfV3
          [⟨"w", ">", FilterVal.scalar (Value.num ⟨0, 1⟩)⟩] "AND" =
        multi_condition_filter dfV3 [] "AND") :=
  ⟨by decide, by decide,
   filter_unknown_column_asymmetry dfV3 "w" "greater"
     (FilterVal.scalar (Value.num ⟨0, 1⟩)) ">"
     (FilterVal.scalar (Value.num ⟨0, 1⟩)) [] "AND" (by decide) (by decide)⟩

/-! ## Claim C9 -/

theorem numericOnly_subset_singlePath (f : List Char) :
    numericOnlyFns.contains f = true → singlePathFns.contains f = true := by
  intro h
  simp only [numericOnlyFns, List.contains_cons, List.contains_nil,
    Bool.or_eq_true, beq_iff_eq] at h
  rcases h with h | h | h | h | h
  · subst h; rfl
  · subst h; rfl
  · subst h; rfl
  · subst h; rfl
  · exact absurd h (by simp)

/-- C9 (amended): when the given `aggCol` is PRESENT in the table, distinct
from the group column, and — for the numeric-only functions `mean`,
`average`, `std`, `stddev` — of numeric dtype, `group_by_aggregate` succeeds
and its result has exactly the group column and that one aggregated column
(first conjunct); a numeric-only function on a non-numeric `aggCol` fails
with the wrapped pandas error, the spec's TypeMismatch (second conjunct); an
absent group column always fails with the column-not-found error (third
conjunct); and an unrecognised function name in the single-column path fails
with the unknown-aggregation error (fourth conjunct).  (The original claim
had no presence or dtype proviso on `aggCol`: the source's
`if agg_column and agg_column in dataframe.columns` silently falls through to
aggregating EVERY numeric column when the given `aggCol` is absent, a
recognised function with `aggCol = groupCol` dies in `reset_index`, and
`grouped[aggCol].mean()` and friends raise on an object column — see the
counterexample.) -/
theorem group_by_aggregate_spec (df : DataFrame) (g c fn : String)
    (hg : hasCol df.columns g.data = true)
    (hc : hasCol df.columns c.data = true)
    (hne : c ≠ g)
    (hfn : singlePathFns.contains (lowerS fn) = true)
    (hdt : numericOnlyFns.contains (lowerS fn) = true →
      df.dtypes.getD ((colIdx df.columns c.data).getD 0) Dtype.obj ≠ Dtype.obj) :
    (∃ out, group_by_aggregate df g fn (some c) = Except.ok out ∧ out.columns = [g, c]) ∧
    (∀ fn', numericOnlyFns.contains (lowerS fn') = true →
      df.dtypes.getD ((colIdx df.columns c.data).getD 0) Dtype.obj = Dtype.obj →
      group_by_aggregate df g fn' (some c) = Except.error "Error in group by operation.") ∧
    (∀ g' fn' c', hasCol df.columns g'.data = false →
      group_by_aggregate df g' fn' c' = Except.error "Column not found.") ∧
    (∀ fn', singlePathFns.contains (lowerS fn') = false →
      group_by_aggregate df g fn' (some c) = Except.error "Unknown aggregation function.") := by
  refine ⟨?_, ?_, ?_, ?_⟩
  · refine ⟨aggSingleTable df ((colIdx df.columns g.data).getD 0)
      ((colIdx df.columns c.data).getD 0) g c (lowerS fn), ?_, rfl⟩
    have hgate : ¬ (numericOnlyFns.contains (lowerS fn) = true ∧
        df.dtypes.getD ((colIdx df.columns c.data).getD 0) Dtype.obj = Dtype.obj) :=
      fun h => hdt h.1 h.2
    unfold group_by_aggregate
    rw [if_neg (by simp [hg])]
    dsimp only
    rw [if_pos hc, if_pos hfn, if_neg hgate, if_neg hne]
  · intro fn' hno hobj
    have hfn2 := numericOnly_subset_singlePath _ hno
    unfold group_by_aggregate
    rw [if_neg (by simp [hg])]
    dsimp only
    rw [if_pos hc, if_pos hfn2, if_pos ⟨hno, hobj⟩]
  · intro g' fn' c' hg'
    unfold group_by_aggregate
    rw [if_pos (by simp [hg'])]
  · intro fn' hfn'
    unfold group_by_aggregate
    rw [if_neg (by simp [hg])]
    dsimp only
    rw [if_pos hc, if_neg (by simp only [hfn']; simp)]

/-- A three-column table: categorical group column `g` and numeric `x`, `y`. -/
def dfGXY : DataFrame :=
  ⟨["g", "x", "y"], [Dtype.obj, Dtype.int64, Dtype.int64],
   [[Value.str "a", Value.num ⟨1, 1⟩, Value.num ⟨2, 1⟩],
    [Value.str "b", Value.num ⟨3, 1⟩, Value.num ⟨4, 1⟩]]⟩

/-- C9 (counterexample): with `aggCol = "z"` GIVEN but absent from the table,
the call silently aggregates every numeric column — the result's columns are
`g, x, y`, not "exactly the group column and that one aggregated column"
(first conjunct); and with the recognised function `sum` but
`aggCol = groupCol = "g"`, the single-column path errors in `reset_index`
rather than producing a two-column result (second conjunct). -/
theorem group_by_aggregate_absent_aggcol_counterexample :
    group_by_aggregate dfGXY "g" "sum" (some "z") =
      Except.ok ⟨["g", "x", "y"], [Dtype.obj, Dtype.int64, Dtype.int64],
        [[Value.str "a", Value.num ⟨1, 1⟩, Value.num ⟨2, 1⟩],
         [Value.str "b", Value.num ⟨3, 1⟩, Value.num ⟨4, 1⟩]]⟩ ∧
    group_by_aggregate dfGXY "g" "sum" (some "g") =
      Except.error "Error in group by operation: cannot insert." := ⟨rfl, rfl⟩

/-- A two-column table whose group column `g` and data column `s` are both
textual (object dtype). -/
def dfGS : DataFrame :=
  ⟨["g", "s"], [Dtype.obj, Dtype.obj],
   [[Value.str "a", Value.str "p"], [Value.str "b", Value.str "q"]]⟩

/-- C9 (witness): the amended theorem applied to grouping `dfGXY` by `g` and
summing the present numeric column `x` — the result's columns are exactly
`g, x` — and, via its error conjunct on the all-textual table `dfGS`, to the
numeric-only function `mean` on the object column `s`, which fails with the
wrapped pandas error. -/
theorem group_by_aggregate_spec_witness :
    hasCol dfGXY.columns "g".data = true ∧ hasCol dfGXY.columns "x".data = true ∧
    ("x" : String) ≠ "g" ∧ singlePathFns.contains (lowerS "sum") = true ∧
    ((∃ out, group_by_aggregate dfGXY "g" "sum" (some "x") = Except.ok out ∧
        out.columns = ["g", "x"]) ∧
      (∀ fn', numericOnlyFns.contains (lowerS fn') = true →
        dfGXY.dtypes.getD ((colIdx dfGXY.columns "x".data).getD 0) Dtype.obj = Dtype.obj →
        group_by_aggregate dfGXY "g" fn' (some "x") =
          Except.error "Error in group by operation.") ∧
      (∀ g' fn' c', hasCol dfGXY.columns g'.data = false →
        group_by_aggregate dfGXY g' fn' c' = Except.error "Column not found.") ∧
      (∀ fn', singlePathFns.contains (lowerS fn') = false →
        group_by_aggregate dfGXY "g" fn' (some "x") =
          Except.error "Unknown aggregation function.")) ∧
    group_by_aggregate dfGS "g" "mean" (some "s") =
      Except.error "Error in group by operation." :=
  ⟨by decide, by decide, by decide, by decide,
   group_by_aggregate_spec dfGXY "g" "x" "sum"
     (by decide) (by decide) (by decide) (by decide) (by decide),
   (group_by_aggregate_spec dfGS "g" "s" "sum"
     (by decide) (by decide) (by decide) (by decide) (by decide)).2.1 "mean"
     (by decide) (by decide)⟩

/-! ## Claim C10 -/

/-- C10: the two `get_data_quality_summary` implementations are
observationally equivalent — for EVERY input frame they return the identical
table (first conjunct): the advanced variant's extra min/mean/"max via mean"
computations are dead bindings that never reach its output.  Both emit the
same nine columns (second conjunct). -/
theorem quality_summaries_equivalent (df : DataFrame) :
    advanced_get_data_quality_summary df = get_data_quality_summary df ∧
    (get_data_quality_summary df).columns =
      ["Column", "Data Type", "Total Rows", "Non-Null Count", "Null Count",
       "Null Percentage", "Unique Values", "Duplicates", "Completeness"] :=
  ⟨rfl, rfl⟩
